import Mathlib

/-!
Shallow embedding of the Automation Job Orchestrator of `server/index.cjs`
(Smart Process Flow backend).  The definitions below are direct translations
of the JavaScript source: the job record created by `POST /api/automation/start`,
the stdout line interpreter, the input-file resolution, the `close` / `error`
handlers of the spawned process, and the stop endpoint.  Machine integers are
modelled as `Nat` / `Int`; absent JavaScript object fields (`creditsUsed`,
`pythonProcess`, `endTime`) are modelled as `Option`.
-/

namespace Bolt

/-- `startsWithL hay needle` is true when `needle` is a prefix of `hay`
(character lists). -/
def startsWithL : List Char → List Char → Bool
  | _, [] => true
  | [], _ :: _ => false
  | a :: as, b :: bs => a == b && startsWithL as bs

/-- `hasSubL hay needle` is true when `needle` occurs as a contiguous
sub-list of `hay`; this is JavaScript `String.prototype.includes`. -/
def hasSubL : List Char → List Char → Bool
  | [], needle => needle.isEmpty
  | a :: as, needle => startsWithL (a :: as) needle || hasSubL as needle

/-- JavaScript `hay.includes(needle)`. -/
def subB (hay needle : String) : Bool :=
  hasSubL hay.data needle.data

/-- JavaScript `s.endsWith(suffix)`. -/
def endsB (s suffix : String) : Bool :=
  startsWithL s.data.reverse suffix.data.reverse

/-- Numeric value of a digit list, as JavaScript `parseInt` on a digit-only
capture group. -/
def digitsVal (ds : List Char) : Nat :=
  ds.foldl (fun acc c => 10 * acc + (c.toNat - 48)) 0

/-- First match of the regular expression `(\d+)\/(\d+)` in a character list:
the earliest maximal digit run immediately followed by a slash and at least
one digit; both captured digit runs are maximal. -/
def firstFracL : List Char → Option (Nat × Nat)
  | [] => none
  | c :: rest =>
    if c.isDigit then
      let ds := (c :: rest).takeWhile Char.isDigit
      let after := (c :: rest).dropWhile Char.isDigit
      match after with
      | '/' :: tail =>
        let ds2 := tail.takeWhile Char.isDigit
        if ds2.isEmpty then firstFracL rest else some (digitsVal ds, digitsVal ds2)
      | _ => firstFracL rest
    else firstFracL rest

/-- First `current/total` match of `line.match(/(\d+)\/(\d+)/)`. -/
def firstFrac (s : String) : Option (Nat × Nat) :=
  firstFracL s.data

/-- JavaScript `Math.round (num / den)` for non-negative rationals
(round half away from zero, i.e. half up). -/
def jsRound (num den : Nat) : Nat :=
  (2 * num + den) / (2 * den)

/-- JavaScript `s.trim()`: drop leading and trailing whitespace. -/
def jsTrim (s : String) : String :=
  String.mk (((s.data.dropWhile Char.isWhitespace).reverse.dropWhile
    Char.isWhitespace).reverse)

/-- Split a character list on newline characters (JavaScript
`s.split('\n')`). -/
def splitNlL : List Char → List (List Char)
  | [] => [[]]
  | c :: rest =>
    match splitNlL rest with
    | [] => [[]]
    | s :: ss => if c == '\n' then [] :: s :: ss else (c :: s) :: ss

/-- The informational-marker test of the stdout handler:
`line.includes('INFO') || line.includes('✅') || line.includes('🔍') ||
line.includes('📄') || line.includes('Processing')`. -/
def markerB (line : String) : Bool :=
  subB line "INFO" || subB line "✅" || subB line "🔍" || subB line "📄" ||
    subB line "Processing"

/-- Per-line behaviour of the stdout `data` handler: a line carrying an
informational marker is pushed (trimmed) onto the job output and may update
progress; rule order as in the source (`current/total`, then
Combining/Generating, then completed-successfully).  Returns the optional
log entry and the new progress given the prior progress. -/
def processLine (line : String) (prior : Nat) : Option String × Nat :=
  if markerB line then
    let p :=
      if subB line "Processing" && subB line "/" then
        match firstFrac line with
        | some (c, t) => jsRound (80 * c) t
        | none => prior
      else if subB line "Combining" || subB line "Generating" then 90
      else if subB line "completed successfully" then 100
      else prior
    (some (jsTrim line), p)
  else (none, prior)

/-- Job status strings used by the server: `running`, `completed`, `failed`,
`stopped`. -/
inductive Status where
  | running
  | completed
  | failed
  | stopped
deriving DecidableEq, Repr

/-- An element of the `files` array sent to `/api/automation/start`; the
orchestrator only ever reads its `name` and the array length. -/
structure InputFile where
  name : String
deriving DecidableEq, Repr

/-- A directory entry together with its modification time, as obtained from
`fs.readdirSync` plus `fs.statSync(...).mtime`. -/
structure FileEntry where
  name : String
  mtime : Nat
deriving DecidableEq, Repr

/-- The process record stored in `activeProcesses`.  `creditsUsed` and
`pythonProcess` are `Option` because the start endpoint never sets
`creditsUsed` (reads yield JavaScript `undefined`) and `pythonProcess` is
only assigned at spawn time. -/
structure Job where
  id : String
  serviceId : String
  status : Status
  progress : Nat
  startTime : Nat
  endTime : Option Nat
  files : List InputFile
  output : List String
  resultFiles : List String
  creditsUsed : Option Nat
  pythonProcess : Option Nat
deriving DecidableEq, Repr

/-- The `activeProcesses` map, keyed by process id. -/
abbrev Registry := List (String × Job)

/-- `activeProcesses.get(id)`. -/
def rget : Registry → String → Option Job
  | [], _ => none
  | (k, j) :: rest, id => if k == id then some j else rget rest id

/-- `activeProcesses.set(id, j)`: replace the entry when the key is present,
append it otherwise. -/
def rset : Registry → String → Job → Registry
  | [], id, j => [(id, j)]
  | (k, j0) :: rest, id, j =>
    if k == id then (k, j) :: rest else (k, j0) :: rset rest id j

/-- The `processData` object created by `POST /api/automation/start`. -/
def createProcessData (processId serviceId : String) (files : List InputFile)
    (t : Nat) : Job :=
  { id := processId
    serviceId := serviceId
    status := .running
    progress := 0
    startTime := t
    endTime := none
    files := files
    output := ["🚀 Starting automation process...",
               "📋 Service: " ++ serviceId,
               "📁 Processing " ++ toString files.length ++ " files..."]
    resultFiles := []
    creditsUsed := none
    pythonProcess := none }

/-- The mutation performed by `POST /api/automation/stop/:processId` on an
existing record: kill the handle when present, set status `stopped` and the
end time, push the stop line.  The returned boolean records whether a
SIGTERM was sent (`process.pythonProcess` was non-null). -/
def stopTransition (j : Job) (t : Nat) : Job × Bool :=
  ({ j with status := .stopped
            endTime := some t
            output := j.output ++ ["🛑 Process stopped by user"] },
   j.pythonProcess.isSome)

/-- The full stop endpoint: `(new registry, acknowledged, kill sent)`.
An unknown id yields a 404 and no mutation. -/
def stopEndpoint (r : Registry) (id : String) (t : Nat) :
    Registry × Bool × Bool :=
  match rget r id with
  | none => (r, false, false)
  | some j =>
    let s := stopTransition j t
    (rset r id s.1, true, s.2)

/-- `GET /api/automation/status/:processId`: `none` is the 404 case. -/
def getStatus (r : Registry) (id : String) : Option Job :=
  rget r id

/-- One stdout line applied to a job: the optional log entry is appended and
the progress replaced, exactly as the `data` handler does. -/
def stdoutStep (j : Job) (line : String) : Job :=
  let r := processLine line j.progress
  { j with output := j.output ++ r.1.toList, progress := r.2 }

/-- `output.split('\n').filter(line => line.trim())`. -/
def splitChunk (chunk : String) : List String :=
  ((splitNlL chunk.data).map String.mk).filter (fun l => !(jsTrim l == ""))

/-- The stdout `data` handler applied to one chunk. -/
def applyChunk (j : Job) (chunk : String) : Job :=
  (splitChunk chunk).foldl stdoutStep j

/-- JavaScript `name.replace(/\.[^/.]+$/, "")`: drop a final dot followed by
one or more characters that are neither a dot nor a slash; otherwise the
name is returned unchanged. -/
def stripExtension (s : String) : String :=
  let r := s.data.reverse
  let ext := r.takeWhile (fun c => !(c == '.' || c == '/'))
  match r.drop ext.length with
  | '.' :: rest => if ext.isEmpty then s else String.mk rest.reverse
  | _ => s

/-- The filter of the uploads listing: a candidate matches when its name
contains the logical name with its extension stripped. -/
def candidatesFor (logicalName : String) (entries : List FileEntry) :
    List FileEntry :=
  entries.filter (fun e => subB e.name (stripExtension logicalName))

/-- Insertion step of the descending-by-mtime sort
(`(a, b) => statB.mtime - statA.mtime`). -/
def insertDesc (e : FileEntry) : List FileEntry → List FileEntry
  | [] => [e]
  | x :: xs => if x.mtime ≤ e.mtime then e :: x :: xs else x :: insertDesc e xs

/-- Sort a listing most-recent-first. -/
def sortDesc : List FileEntry → List FileEntry
  | [] => []
  | x :: xs => insertDesc x (sortDesc xs)

/-- The `matchingFile` computation of `runRealPythonAutomation`: filter the
uploads listing by substring containment of the extension-stripped logical
name, sort descending by modification time, take the first element.
`none` is the `Input file not found` throw. -/
def resolveInputFile (logicalName : String) (entries : List FileEntry) :
    Option FileEntry :=
  (sortDesc (candidatesFor logicalName entries)).head?

/-- The `serviceScripts` mapping. -/
def serviceScripts (id : String) : Option String :=
  if id == "damco-tracking-maersk" then some "damco_tracking_maersk.py"
  else if id == "pdf-excel-converter" then some "pdf_converter.py"
  else if id == "exp-issue" then some "bangladesh_bank_exp.py"
  else if id == "damco-booking" then some "damco_services.py"
  else if id == "hm-einvoice-create" then some "hm_invoice_manager.py"
  else if id == "bepza-ep-issue" then some "bepza_permit_manager.py"
  else if id == "cash-incentive-application" then some "cash_incentive_processor.py"
  else if id == "ctg-port-tracking" then some "shipment_tracker.py"
  else if id == "example-automation" then some "example_automation.py"
  else none

/-- Relative form of `path.join(__dirname, '..', 'automation_scripts', s)`. -/
def scriptPathOf (scriptName : String) : String :=
  "automation_scripts/" ++ scriptName

/-- The result-file scan of the success branch of the `close` handler:
entries whose name contains `report` and ends in `.pdf`, `.xlsx` or `.txt`. -/
def reportFilter (entries : List String) : List String :=
  entries.filter (fun f =>
    subB f "report" && (endsB f ".pdf" || endsB f ".xlsx" || endsB f ".txt"))

/-- `fs.existsSync(resultsDir)` guard plus the scan: a missing results
directory yields the empty scan. -/
def collectReports (resultsDir : Option (List String)) : List String :=
  match resultsDir with
  | some entries => reportFilter entries
  | none => []

/-- The `close` handler of the spawned process.  `code = 0` is the success
branch (scan results, force progress 100, status `completed`); any other
code is the failure branch (push the refund line quoting `creditsUsed`,
status `failed`, exit-code hints).  The second component lists the refund
actions emitted, each carrying the record's `creditsUsed` field. -/
def closeHandler (j : Job) (code : Int) (resultsDir : Option (List String))
    (t : Nat) : Job × List (Option Nat) :=
  if code == 0 then
    let files := collectReports resultsDir
    let rfiles :=
      if files.length > 0 then files
      else [j.serviceId ++ "_report_" ++ toString t ++ ".pdf"]
    let out1 := j.output ++
      ["🎉 " ++ j.serviceId ++ " automation completed successfully!"]
    let out2 := out1 ++
      (if files.length > 0 then ["📄 Generated: " ++ rfiles.headD ""]
       else ["📄 Report generation completed"])
    ({ j with status := .completed
              endTime := some t
              progress := 100
              resultFiles := rfiles
              output := out2 }, [])
  else
    let amt := match j.creditsUsed with
      | some n => toString n
      | none => "undefined"
    let hints :=
      if code == 9009 then
        ["💡 Error 9009: Python command not found",
         "🔧 Solution: Install Python from https://python.org",
         "📋 Make sure to check \"Add Python to PATH\" during installation"]
      else if code == 1 then
        ["💡 Error 1: Python script execution failed",
         "🔧 Check if all required packages are installed:",
         "   python3 -m pip install --user selenium pandas openpyxl beautifulsoup4 requests webdriver-manager",
         "🔍 Verify pandas: python3 -c \"import pandas; print(\x27OK\x27)\"",
         "📋 Run install script: ./install.sh"]
      else []
    ({ j with status := .failed
              endTime := some t
              output := j.output ++
                ["💰 Refunding " ++ amt ++ " credits due to automation failure"] ++
                ["❌ Automation failed with exit code: " ++ toString code] ++
                hints }, [j.creditsUsed])

/-- The `error` handler of the spawned process (spawn failure): status
`failed`, no refund action. -/
def spawnErr (j : Job) (msg : String) (enoent : Bool) (t : Nat) :
    Job × List (Option Nat) :=
  ({ j with status := .failed
            endTime := some t
            output := j.output ++
              ["❌ Failed to start Python script: " ++ msg] ++
              (if enoent then
                ["💡 Python not found in system PATH",
                 "🔧 Install Python from: https://python.org",
                 "📋 Windows: Use \x27python\x27 command instead of \x27python3\x27"]
               else []) }, [])

/-- The `catch` of `startAutomationScript`, reached when
`runRealPythonAutomation` throws before or after the launch: status
`failed`, the error message pushed, no refund action. -/
def catchFail (j : Job) (msg : String) (t : Nat) : Job × List (Option Nat) :=
  ({ j with status := .failed
            endTime := some t
            output := j.output ++ ["❌ Automation failed: " ++ msg] }, [])

/-- Log lines pushed between input-file resolution and spawn.  The local
`process` variable shadows Node's global, so `process.platform` reads the
job record and prints `undefined`. -/
def prelaunchLog (serviceId : String) (f : InputFile)
    (scriptName inputFilePath : String) : List String :=
  ["🚀 Starting real " ++ serviceId ++ " automation...",
   "📋 Processing file: " ++ f.name,
   "🐍 Script: " ++ scriptName,
   "📁 File path: " ++ inputFilePath,
   "🔧 Command: python3 " ++ scriptPathOf scriptName ++ " " ++ inputFilePath ++
     " --headless",
   "💻 Platform: undefined",
   "🐍 Python detected: python3"]

/-- The synchronous slice of a start request after validation: create the
record, resolve the first input file against the uploads listing, check the
script, push the pre-launch log lines and spawn (handle `h`).  Returns the
job as it stands when the endpoint replies, together with the argument
vector passed to the spawned task (`none` when no task was launched). -/
def startSync (pid serviceId scriptName : String) (files : List InputFile)
    (uploads : List FileEntry) (scriptExists : Bool) (h : Nat) (t : Nat) :
    Job × Option (List String) :=
  let j0 := createProcessData pid serviceId files t
  match files with
  | [] => ((catchFail j0 "No input file found for processing" t).1, none)
  | f :: _ =>
    match resolveInputFile f.name uploads with
    | none => ((catchFail j0 ("Input file not found: " ++ f.name) t).1, none)
    | some e =>
      if scriptExists then
        let inputFilePath := "uploads/" ++ e.name
        ({ j0 with
            output := j0.output ++ prelaunchLog serviceId f scriptName inputFilePath
            pythonProcess := some h },
         some [scriptPathOf scriptName, inputFilePath, "--headless"])
      else
        ((catchFail j0 ("Automation script not found: " ++ scriptName) t).1, none)

/-- A concrete record as created by the start endpoint, used by the
concrete-input theorems below. -/
def baseJob : Job :=
  createProcessData "process_1" "example-automation" [⟨"data.csv"⟩] 0

theorem head_some_mem {α : Type} {l : List α} {a : α} (h : l.head? = some a) :
    a ∈ l := by
  cases l with
  | nil => simp at h
  | cons x xs =>
    simp only [List.head?] at h
    injection h with h
    exact h ▸ List.mem_cons_self x xs

theorem mem_insertDesc {a e : FileEntry} :
    ∀ {l : List FileEntry}, a ∈ insertDesc e l ↔ a = e ∨ a ∈ l := by
  intro l
  induction l with
  | nil => simp [insertDesc]
  | cons x xs ih =>
    simp only [insertDesc]
    split
    · simp [List.mem_cons]
    · simp only [List.mem_cons, ih]
      tauto

theorem insertDesc_ne_nil (e : FileEntry) (l : List FileEntry) :
    insertDesc e l ≠ [] := by
  cases l with
  | nil => simp [insertDesc]
  | cons x xs =>
    simp only [insertDesc]
    split <;> simp

theorem sortDesc_eq_nil {l : List FileEntry} (h : sortDesc l = []) : l = [] := by
  cases l with
  | nil => rfl
  | cons x xs => exact absurd h (insertDesc_ne_nil x (sortDesc xs))

theorem mem_sortDesc {a : FileEntry} :
    ∀ {l : List FileEntry}, a ∈ sortDesc l ↔ a ∈ l := by
  intro l
  induction l with
  | nil => simp [sortDesc]
  | cons x xs ih =>
    simp only [sortDesc, mem_insertDesc, ih, List.mem_cons]

theorem sortDesc_head_max :
    ∀ {l : List FileEntry} {m : FileEntry}, (sortDesc l).head? = some m →
      ∀ a ∈ l, a.mtime ≤ m.mtime := by
  intro l
  induction l with
  | nil => intro m h; simp [sortDesc] at h
  | cons x xs ih =>
    intro m h a ha
    cases hs : sortDesc xs with
    | nil =>
      have hxs : xs = [] := sortDesc_eq_nil hs
      subst hxs
      simp only [sortDesc, hs, insertDesc, List.head?] at h
      injection h with h
      rcases List.mem_singleton.mp ha with rfl
      exact le_of_eq (congrArg FileEntry.mtime h)
    | cons y ys =>
      by_cases hc : y.mtime ≤ x.mtime
      · have hm : m = x := by
          simp only [sortDesc, hs, insertDesc, if_pos hc, List.head?] at h
          exact (Option.some.inj h).symm
        subst hm
        rcases List.mem_cons.mp ha with rfl | haxs
        · exact le_refl _
        · exact le_trans (ih (hs ▸ rfl) a haxs) hc
      · have hm : m = y := by
          simp only [sortDesc, hs, insertDesc, if_neg hc, List.head?] at h
          exact (Option.some.inj h).symm
        subst hm
        rcases List.mem_cons.mp ha with rfl | haxs
        · exact le_of_not_le hc
        · exact ih (hs ▸ rfl) a haxs

theorem rget_rset_self (r : Registry) (id : String) (j : Job) :
    rget (rset r id j) id = some j := by
  induction r with
  | nil => simp [rset, rget]
  | cons p rest ih =>
    obtain ⟨k, j0⟩ := p
    by_cases hk : (k == id) = true
    · simp [rset, rget, hk]
    · simp only [Bool.not_eq_true] at hk
      simp [rset, rget, hk, ih]

/-- C2 counterexample: progress is not monotone.  After the line
`Processing 4/10` the job's progress is 32, and the later line
`Processing 2/10` lowers it to 16 instead of being a no-op. -/
theorem progress_decreases_cex :
    (applyChunk baseJob "Processing 4/10").progress = 32 ∧
    (applyChunk (applyChunk baseJob "Processing 4/10") "Processing 2/10").progress = 16 ∧
    ¬(32 ≤ 16) := by
  refine ⟨by decide, by decide, by decide⟩

/-- C2 amended: the `current/total` rule overwrites progress with the value
it computes, with no monotonicity clamp — a rule that computes a value lower
than the current progress does lower it. -/
theorem fraction_rule_overwrites (line : String) (prior c t : Nat)
    (hm : markerB line = true) (hp : subB line "Processing" = true)
    (hs : subB line "/" = true) (hf : firstFrac line = some (c, t)) :
    (processLine line prior).2 = jsRound (80 * c) t := by
  simp [processLine, hm, hp, hs, hf]

/-- C2 amended, witness: `Processing 2/10` at prior progress 32 computes 16,
strictly below the prior value. -/
theorem fraction_rule_overwrites_witness :
    (processLine "Processing 2/10" 32).2 = jsRound (80 * 2) 10 ∧
    jsRound (80 * 2) 10 = 16 ∧ 16 < 32 :=
  ⟨fraction_rule_overwrites "Processing 2/10" 32 2 10 rfl rfl rfl rfl,
   rfl, by decide⟩

/-- C4 counterexample: the line `Generating summary` carries no
informational marker, so it does not set progress to 90 — progress stays at
its prior value. -/
theorem generating_no_progress_cex :
    (processLine "Generating summary" 0).2 = 0 ∧ (0 : Nat) ≠ 90 := by
  refine ⟨rfl, by decide⟩

/-- C4 amended: the per-line rules apply only to lines carrying an
informational marker (INFO, ✅, 🔍, 📄 or the word Processing); among those,
first match wins: `Processing 4/10` yields 32, a marker-carrying
Generating line yields 90, a marker-carrying completed-successfully line
yields 100, while the bare `Generating summary` and `completed successfully`
lines leave progress unchanged. -/
theorem interpreter_rules_eval (p : Nat) :
    (processLine "Processing 4/10" p).2 = 32 ∧
    (processLine "✅ Generating summary" p).2 = 90 ∧
    (processLine "✅ completed successfully" p).2 = 100 ∧
    (processLine "Generating summary" p).2 = p ∧
    (processLine "completed successfully" p).2 = p :=
  ⟨rfl, rfl, rfl, rfl, rfl⟩

/-- C5 counterexample: `completed successfully` is a marker-less line that
satisfies the substring condition of progress rule 3, yet it does not update
progress (the rules are only evaluated for marker-carrying lines). -/
theorem markerless_no_update_cex :
    markerB "completed successfully" = false ∧
    subB "completed successfully" "completed successfully" = true ∧
    (processLine "completed successfully" 55).2 = 55 ∧ (55 : Nat) ≠ 100 := by
  refine ⟨rfl, rfl, rfl, by decide⟩

/-- C5 amended: a line carrying an informational marker is appended
(trimmed) to the log; a marker-less line is neither appended to the log nor
able to update progress. -/
theorem marker_gates_log_and_progress (line : String) (p : Nat) :
    (markerB line = false → processLine line p = (none, p)) ∧
    (markerB line = true → (processLine line p).1 = some (jsTrim line)) := by
  constructor
  · intro hm; simp [processLine, hm]
  · intro hm; simp [processLine, hm]

/-- C5 amended, witness: the marker-less `completed successfully` line is
dropped and leaves progress at 7; the marker-carrying `✅ Done` line is
appended. -/
theorem marker_gates_log_and_progress_witness :
    processLine "completed successfully" 7 = (none, 7) ∧
    (processLine "✅ Done" 7).1 = some (jsTrim "✅ Done") :=
  ⟨(marker_gates_log_and_progress "completed successfully" 7).1 rfl,
   (marker_gates_log_and_progress "✅ Done" 7).2 rfl⟩

/-- C1 counterexample: a Running job with positive charged credits that
fails through the spawn `error` handler triggers zero refund actions, not
exactly one. -/
theorem failed_without_refund_cex :
    ({ baseJob with creditsUsed := some 5 } : Job).status = .running ∧
    0 < 5 ∧
    (spawnErr { baseJob with creditsUsed := some 5 } "spawn python3 ENOENT" true 3).1.status = .failed ∧
    (spawnErr { baseJob with creditsUsed := some 5 } "spawn python3 ENOENT" true 3).2 = [] ∧
    ([] : List (Option Nat)).length ≠ 1 := by
  refine ⟨rfl, by decide, rfl, rfl, by decide⟩

/-- C1 amended: only the non-zero-exit-code close path emits a refund
action; it emits exactly one, unconditionally, quoting the record's
`creditsUsed` field — which the start endpoint never sets.  The zero-exit
close path, the spawn `error` handler and the orchestration `catch` emit
none. -/
theorem refund_only_nonzero_close (j : Job) (code : Int)
    (dir : Option (List String)) (msg : String) (b : Bool) (t t0 : Nat)
    (pid sid : String) (files : List InputFile) (hc : code ≠ 0) :
    (closeHandler j code dir t).2 = [j.creditsUsed] ∧
    (closeHandler j 0 dir t).2 = [] ∧
    (spawnErr j msg b t).2 = [] ∧
    (catchFail j msg t).2 = [] ∧
    (createProcessData pid sid files t0).creditsUsed = none := by
  refine ⟨?_, rfl, rfl, rfl, rfl⟩
  simp [closeHandler, hc]

/-- C1 amended, witness: exit code 1 on a freshly created record emits one
refund action quoting the unset `creditsUsed`; exit code 0, a spawn error
and the catch path emit none. -/
theorem refund_only_nonzero_close_witness :
    (closeHandler baseJob 1 none 7).2 = [baseJob.creditsUsed] ∧
    (closeHandler baseJob 0 none 7).2 = [] ∧
    (spawnErr baseJob "m" true 7).2 = [] ∧
    (catchFail baseJob "m" 7).2 = [] ∧
    (createProcessData "p" "svc" [] 0).creditsUsed = none :=
  refund_only_nonzero_close baseJob 1 none "m" true 7 0 "p" "svc" [] (by decide)

/-- C3 counterexample: a cancel request on an already-Completed job still
acknowledges success but overwrites the status to Stopped instead of leaving
it unchanged. -/
theorem stop_overwrites_terminal_cex :
    (stopEndpoint [("p1", { baseJob with status := .completed, endTime := some 4 })] "p1" 9).2.1 = true ∧
    Option.map Job.status (getStatus
      (stopEndpoint [("p1", { baseJob with status := .completed, endTime := some 4 })] "p1" 9).1 "p1") =
      some .stopped ∧
    Status.stopped ≠ Status.completed := by
  refine ⟨rfl, by decide, by decide⟩

/-- C3 amended: terminal states are not protected.  A cancel request on any
existing record — terminal or not — sets status Stopped; the process-exit
callback sets Completed or Failed according to the exit code regardless of
the current status; only late-arriving output lines leave the status
untouched. -/
theorem no_terminal_protection (j : Job) (t : Nat) (code : Int)
    (dir : Option (List String)) (line : String) :
    (stopTransition j t).1.status = .stopped ∧
    ((closeHandler j code dir t).1.status = .completed ∨
      (closeHandler j code dir t).1.status = .failed) ∧
    (stdoutStep j line).status = j.status := by
  refine ⟨rfl, ?_, rfl⟩
  by_cases hc : code == 0
  · left; simp [closeHandler, hc]
  · right; simp [closeHandler, hc]

/-- C6: a cancel request on a Running job with an owned process handle
acknowledges success, sends the termination signal, and synchronously sets
status Stopped and the end time; an immediately following status query
observes Stopped. -/
theorem cancel_running_immediate_stop (r : Registry) (id : String) (t : Nat)
    (j : Job) (h : Nat) (hget : rget r id = some j)
    (_hrun : j.status = .running) (hh : j.pythonProcess = some h) :
    (stopEndpoint r id t).2.1 = true ∧
    (stopEndpoint r id t).2.2 = true ∧
    Option.map Job.status (getStatus (stopEndpoint r id t).1 id) =
      some .stopped ∧
    Option.map Job.endTime (getStatus (stopEndpoint r id t).1 id) =
      some (some t) := by
  simp [stopEndpoint, hget, stopTransition, getStatus, rget_rset_self, hh]

/-- C6 witness: stopping a concrete running job with handle 1 in a
one-entry registry. -/
theorem cancel_running_immediate_stop_witness :
    (stopEndpoint [("process_1", { baseJob with pythonProcess := some 1 })] "process_1" 9).2.1 = true ∧
    (stopEndpoint [("process_1", { baseJob with pythonProcess := some 1 })] "process_1" 9).2.2 = true ∧
    Option.map Job.status (getStatus
      (stopEndpoint [("process_1", { baseJob with pythonProcess := some 1 })] "process_1" 9).1 "process_1") =
      some .stopped ∧
    Option.map Job.endTime (getStatus
      (stopEndpoint [("process_1", { baseJob with pythonProcess := some 1 })] "process_1" 9).1 "process_1") =
      some (some 9) :=
  cancel_running_immediate_stop
    [("process_1", { baseJob with pythonProcess := some 1 })] "process_1" 9
    { baseJob with pythonProcess := some 1 } 1 (by decide) rfl rfl

/-- C9 counterexample: the process handle survives the terminal transition —
after a successful close the job is Completed yet still holds handle 3, so
the handle is not non-null iff Running. -/
theorem handle_kept_after_completed_cex :
    (closeHandler { baseJob with pythonProcess := some 3 } 0 (some []) 5).1.status = .completed ∧
    (closeHandler { baseJob with pythonProcess := some 3 } 0 (some []) 5).1.pythonProcess = some 3 ∧
    (some 3 : Option Nat) ≠ none := by
  refine ⟨rfl, rfl, by decide⟩

/-- C9 amended: no transition ever clears the handle — stop, close, spawn
error and the catch path all leave `pythonProcess` exactly as it was — and
the record is created Running with a null handle, so neither direction of
the claimed iff holds. -/
theorem handle_never_cleared (j : Job) (t t0 : Nat) (code : Int)
    (dir : Option (List String)) (msg : String) (b : Bool)
    (pid sid : String) (files : List InputFile) :
    (stopTransition j t).1.pythonProcess = j.pythonProcess ∧
    (closeHandler j code dir t).1.pythonProcess = j.pythonProcess ∧
    (spawnErr j msg b t).1.pythonProcess = j.pythonProcess ∧
    (catchFail j msg t).1.pythonProcess = j.pythonProcess ∧
    (createProcessData pid sid files t0).pythonProcess = none ∧
    (createProcessData pid sid files t0).status = .running := by
  refine ⟨rfl, ?_, rfl, rfl, rfl, rfl⟩
  by_cases hc : code == 0 <;> simp [closeHandler, hc]

/-- C7: input-file resolution fails exactly when no listed entry contains
the extension-stripped logical name, and otherwise returns a matching entry
of maximal modification time. -/
theorem resolver_most_recent_match (logicalName : String)
    (entries : List FileEntry) :
    (resolveInputFile logicalName entries = none ↔
      candidatesFor logicalName entries = []) ∧
    ∀ m, resolveInputFile logicalName entries = some m →
      m ∈ candidatesFor logicalName entries ∧
      ∀ a ∈ candidatesFor logicalName entries, a.mtime ≤ m.mtime := by
  constructor
  · unfold resolveInputFile
    constructor
    · intro h
      cases hs : sortDesc (candidatesFor logicalName entries) with
      | nil => exact sortDesc_eq_nil hs
      | cons y ys => rw [hs] at h; simp at h
    · intro h; rw [h]; rfl
  · intro m hm
    have hmem : m ∈ sortDesc (candidatesFor logicalName entries) :=
      head_some_mem hm
    exact ⟨mem_sortDesc.mp hmem, sortDesc_head_max hm⟩

/-- C7 witness: with storage entries `2024-upload-invoice.csv` (mtime 100)
and `2023-upload-invoice.csv` (mtime 50) and logical name `invoice.csv`,
resolution returns the 2024 file, which matches and has maximal mtime. -/
theorem resolver_most_recent_match_witness :
    resolveInputFile "invoice.csv"
      [⟨"2024-upload-invoice.csv", 100⟩, ⟨"2023-upload-invoice.csv", 50⟩] =
      some ⟨"2024-upload-invoice.csv", 100⟩ ∧
    (⟨"2024-upload-invoice.csv", 100⟩ : FileEntry) ∈
      candidatesFor "invoice.csv"
        [⟨"2024-upload-invoice.csv", 100⟩, ⟨"2023-upload-invoice.csv", 50⟩] ∧
    ∀ a ∈ candidatesFor "invoice.csv"
        [⟨"2024-upload-invoice.csv", 100⟩, ⟨"2023-upload-invoice.csv", 50⟩],
      a.mtime ≤ (⟨"2024-upload-invoice.csv", 100⟩ : FileEntry).mtime :=
  have h := (resolver_most_recent_match "invoice.csv"
    [⟨"2024-upload-invoice.csv", 100⟩, ⟨"2023-upload-invoice.csv", 50⟩]).2
    ⟨"2024-upload-invoice.csv", 100⟩ (by decide)
  ⟨by decide, h.1, h.2⟩

/-- C8: a zero exit code always yields status Completed, progress 100 and a
non-empty `resultFiles`: the report scan of the results directory when it is
non-empty, and otherwise exactly one name synthesized from the service kind
and the timestamp. -/
theorem exit_zero_completes (j : Job) (dir : Option (List String)) (t : Nat) :
    (closeHandler j 0 dir t).1.status = .completed ∧
    (closeHandler j 0 dir t).1.progress = 100 ∧
    (closeHandler j 0 dir t).1.resultFiles ≠ [] ∧
    (collectReports dir ≠ [] →
      (closeHandler j 0 dir t).1.resultFiles = collectReports dir) ∧
    (collectReports dir = [] →
      (closeHandler j 0 dir t).1.resultFiles =
        [j.serviceId ++ "_report_" ++ toString t ++ ".pdf"]) := by
  cases hd : collectReports dir with
  | nil => refine ⟨rfl, rfl, ?_, ?_, ?_⟩ <;> simp [closeHandler, hd]
  | cons a as => refine ⟨rfl, rfl, ?_, ?_, ?_⟩ <;> simp [closeHandler, hd]

/-- C8 witness: a results directory containing `sales_report.pdf` and
`notes.md` yields exactly the scanned report; an empty directory yields the
synthesized fallback name. -/
theorem exit_zero_completes_witness :
    (closeHandler baseJob 0 (some ["sales_report.pdf", "notes.md"]) 7).1.resultFiles =
      collectReports (some ["sales_report.pdf", "notes.md"]) ∧
    (closeHandler baseJob 0 (some []) 7).1.resultFiles =
      [baseJob.serviceId ++ "_report_" ++ toString 7 ++ ".pdf"] ∧
    (closeHandler baseJob 0 (some []) 7).1.status = .completed :=
  ⟨(exit_zero_completes baseJob (some ["sales_report.pdf", "notes.md"]) 7).2.2.2.1
      (by decide),
   (exit_zero_completes baseJob (some []) 7).2.2.2.2 (by decide),
   (exit_zero_completes baseJob (some []) 7).1⟩

/-- C10 counterexample: supplying a second input file does change the job's
log — the creation log echoes the file count — so the tail of the input
sequence is not without effect on the log. -/
theorem extra_file_changes_log_cex :
    (startSync "p" "svc" "s.py" [⟨"a.csv"⟩] [] false 1 0).1.output ≠
      (startSync "p" "svc" "s.py" [⟨"a.csv"⟩, ⟨"b.csv"⟩] [] false 1 0).1.output := by
  decide

/-- C10 amended: only the first input file and the count of the input files
matter — two start requests whose input sequences share the first element
and have equal length resolve the same path, pass the same argument vector
to the launched task, and produce identical log, progress and result
files. -/
theorem tail_files_only_counted (pid sid sn : String) (f : InputFile)
    (rest rest' : List InputFile) (uploads : List FileEntry) (se : Bool)
    (h t : Nat) (hlen : rest.length = rest'.length) :
    (startSync pid sid sn (f :: rest) uploads se h t).2 =
      (startSync pid sid sn (f :: rest') uploads se h t).2 ∧
    (startSync pid sid sn (f :: rest) uploads se h t).1.output =
      (startSync pid sid sn (f :: rest') uploads se h t).1.output ∧
    (startSync pid sid sn (f :: rest) uploads se h t).1.progress =
      (startSync pid sid sn (f :: rest') uploads se h t).1.progress ∧
    (startSync pid sid sn (f :: rest) uploads se h t).1.resultFiles =
      (startSync pid sid sn (f :: rest') uploads se h t).1.resultFiles := by
  cases hr : resolveInputFile f.name uploads with
  | none =>
    simp [startSync, hr, catchFail, createProcessData, hlen]
  | some e =>
    cases se <;>
      simp [startSync, hr, catchFail, createProcessData, prelaunchLog, hlen]

/-- C10 amended, witness: swapping the second file `b.csv` for `c.csv`
leaves the argument vector, log, progress and result files unchanged. -/
theorem tail_files_only_counted_witness :
    (startSync "p" "svc" "s.py" [⟨"a.csv"⟩, ⟨"b.csv"⟩] [⟨"x-a.csv", 3⟩] true 1 0).2 =
      (startSync "p" "svc" "s.py" [⟨"a.csv"⟩, ⟨"c.csv"⟩] [⟨"x-a.csv", 3⟩] true 1 0).2 ∧
    (startSync "p" "svc" "s.py" [⟨"a.csv"⟩, ⟨"b.csv"⟩] [⟨"x-a.csv", 3⟩] true 1 0).1.output =
      (startSync "p" "svc" "s.py" [⟨"a.csv"⟩, ⟨"c.csv"⟩] [⟨"x-a.csv", 3⟩] true 1 0).1.output ∧
    (startSync "p" "svc" "s.py" [⟨"a.csv"⟩, ⟨"b.csv"⟩] [⟨"x-a.csv", 3⟩] true 1 0).1.progress =
      (startSync "p" "svc" "s.py" [⟨"a.csv"⟩, ⟨"c.csv"⟩] [⟨"x-a.csv", 3⟩] true 1 0).1.progress ∧
    (startSync "p" "svc" "s.py" [⟨"a.csv"⟩, ⟨"b.csv"⟩] [⟨"x-a.csv", 3⟩] true 1 0).1.resultFiles =
      (startSync "p" "svc" "s.py" [⟨"a.csv"⟩, ⟨"c.csv"⟩] [⟨"x-a.csv", 3⟩] true 1 0).1.resultFiles :=
  tail_files_only_counted "p" "svc" "s.py" ⟨"a.csv"⟩ [⟨"b.csv"⟩] [⟨"c.csv"⟩]
    [⟨"x-a.csv", 3⟩] true 1 0 rfl

end Bolt
